import Mathlib

/-!
Verification of the calculation core of the GeoMaster right-triangle widget
(`src/App.tsx`).  The two solver functions `calculatePythagoras` (source lines
207-244) and `calculateTrig` (source lines 246-287) are embedded shallowly:

* Raw inputs reach the solvers through `parseFloat`; a blank or unparseable
  field yields `NaN` and every guard in the source tests `!isNaN(...)`.
  We model a parsed input as `Option ℝ` (`none` = absent/non-numeric).
* `Math.sqrt` returns `NaN` on negative arguments; we model its result with
  `JsNum` (`nan` or a real number).  Sine, cosine and tangent never produce
  `NaN` on the real arguments that occur here, so they stay in `ℝ`.
* The three observable outcomes of a solver call — set the result state,
  raise a blocking `alert(...)` and return, or fall through doing nothing —
  are modelled by `SolveOutcome`: `ok`, `error`, `noop`.
* Each derivation step in the source is `{ text, math }` where `math` is a
  formatted string.  We model `math` structurally: one `MathExpr` constructor
  per template string in the source, carrying exactly the numeric data that
  was interpolated.  Where the source interpolates `x.toFixed(d)` (a decimal
  rounding) the constructor carries the rounded scaled integer, computed by
  `jsToFixed`; where the source interpolates `${x}` (raw JavaScript number
  formatting, which is injective) the constructor carries the number itself.
  `mathString` renders the templates whose interpolations are all `toFixed`
  fragments; templates that interpolate raw JavaScript number formatting are
  not rendered (that formatting is not modelled) and yield `none`.
-/

namespace GeoMaster

/-- Tag for the side the user supplies to the trig solver
(source `type Side = 'a' | 'b' | 'c'`). -/
inductive Side where
  | a : Side
  | b : Side
  | c : Side

/-- Result of a JavaScript `Math.sqrt` call: `NaN` or a real number. -/
inductive JsNum where
  | nan : JsNum
  | num : ℝ → JsNum

/-- JavaScript `Math.sqrt`: `NaN` on a negative argument, otherwise the real
square root. -/
noncomputable def jsSqrt (x : ℝ) : JsNum :=
  if 0 ≤ x then JsNum.num (Real.sqrt x) else JsNum.nan

/-- Holds exactly when the value is a real number (not `NaN`). -/
def JsNum.isNum : JsNum → Prop
  | JsNum.nan => False
  | JsNum.num _ => True

/-- JavaScript `x.toFixed(d)` as the rounded scaled integer: the displayed
digit string of `x.toFixed(d)` denotes `jsToFixed d x / 10 ^ d`.  ECMA-262
picks the integer `n` minimising `|n / 10 ^ d - x|`, preferring the larger
`n` on ties, which for the values arising here is `⌊x * 10 ^ d + 1 / 2⌋`. -/
noncomputable def jsToFixed (d : ℕ) (x : ℝ) : ℤ :=
  ⌊x * 10 ^ d + 1 / 2⌋

/-- Result of `toFixed` applied to a possibly-`NaN` number: `(NaN).toFixed(d)`
is the string `NaN`, otherwise a rounded scaled integer. -/
inductive FixedNum where
  | nan : FixedNum
  | num : ℤ → FixedNum

/-- Apply `toFixed` to a `JsNum`. -/
noncomputable def jsToFixedJ (d : ℕ) : JsNum → FixedNum
  | JsNum.nan => FixedNum.nan
  | JsNum.num x => FixedNum.num (jsToFixed d x)

/-- Left-pad a digit string with zeros up to width `d`. -/
def padZeros (d : ℕ) (s : String) : String :=
  if s.length < d then String.mk (List.replicate (d - s.length) '0') ++ s else s

/-- Render the scaled integer produced by `jsToFixed d` the way JavaScript
prints `x.toFixed(d)`: sign, integer part, point, `d` fractional digits. -/
def renderFixed (d : ℕ) (n : ℤ) : String :=
  let sign := if n < 0 then "-" else ""
  let m := n.natAbs
  if d = 0 then sign ++ toString m
  else sign ++ toString (m / 10 ^ d) ++ "." ++ padZeros d (toString (m % 10 ^ d))

/-- Render a `FixedNum` (`NaN` prints as the string `NaN`). -/
def renderFixedNum (d : ℕ) : FixedNum → String
  | FixedNum.nan => "NaN"
  | FixedNum.num n => renderFixed d n

/-- Structured model of the `math` string of one derivation step: one
constructor per template literal in the source, carrying the interpolated
data (rounded scaled integers for `toFixed` interpolations, raw numbers for
raw interpolations). -/
inductive MathExpr where
  | knownAB : ℝ → ℝ → MathExpr
  | formulaC : MathExpr
  | substC : ℝ → ℝ → MathExpr
  | squaresC : ℤ → ℤ → MathExpr
  | sumC : ℤ → MathExpr
  | approxC : FixedNum → MathExpr
  | knownAC : ℝ → ℝ → MathExpr
  | formulaB : MathExpr
  | substB : ℝ → ℝ → MathExpr
  | approxB : FixedNum → MathExpr
  | knownBC : ℝ → ℝ → MathExpr
  | formulaA : MathExpr
  | substA : ℝ → ℝ → MathExpr
  | approxA : FixedNum → MathExpr
  | trigGivenC : ℝ → ℝ → MathExpr
  | trigCalcAFromC : ℝ → ℝ → ℤ → MathExpr
  | trigCalcBFromC : ℝ → ℝ → ℤ → MathExpr
  | trigGivenA : ℝ → ℝ → MathExpr
  | trigCalcCFromA : ℝ → ℝ → ℤ → MathExpr
  | trigCalcBFromA : ℝ → ℝ → ℤ → MathExpr
  | trigGivenB : ℝ → ℝ → MathExpr
  | trigCalcCFromB : ℝ → ℝ → ℤ → MathExpr
  | trigCalcAFromB : ℝ → ℝ → ℤ → MathExpr

/-- Render a `MathExpr` whose interpolations are all `toFixed` fragments;
templates that interpolate raw JavaScript number formatting (which is not
modelled) yield `none`.  Braces of the LaTeX source are escaped. -/
def MathExpr.mathString : MathExpr → Option String
  | MathExpr.squaresC p q =>
      some ("c = \\sqrt\x7b" ++ renderFixed 2 p ++ " + " ++ renderFixed 2 q ++ "\x7d")
  | MathExpr.sumC s => some ("c = \\sqrt\x7b" ++ renderFixed 2 s ++ "\x7d")
  | MathExpr.approxC r => some ("c \\approx " ++ renderFixedNum 4 r)
  | MathExpr.approxB r => some ("b \\approx " ++ renderFixedNum 4 r)
  | MathExpr.approxA r => some ("a \\approx " ++ renderFixedNum 4 r)
  | _ => none

/-- One derivation step (source `interface CalculationStep`): a description
and its formatted mathematical expression.  The `math` field is optional in
the source type but both solvers always supply it, so it is mandatory here. -/
structure CalculationStep where
  text : String
  math : MathExpr

/-- Result stored by `setPythResult`: the computed value and the steps. -/
structure PythResult where
  val : JsNum
  steps : List CalculationStep

/-- Result stored by `setTrigResult`: three sides, three ratios, steps. -/
structure TrigResult where
  a : ℝ
  b : ℝ
  c : ℝ
  sin : ℝ
  cos : ℝ
  tan : ℝ
  steps : List CalculationStep

/-- Error surfaced as a blocking `alert(...)` in the source.
`invalidGeometry` is the alert text
`La hipotenusa debe ser mayor que el cateto.` (the hypotenuse must exceed
the leg); `invalidAngle` is
`El ángulo debe estar entre 0° y 90°.` (the angle must be strictly between
0° and 90°). -/
inductive SolveError where
  | invalidGeometry : SolveError
  | invalidAngle : SolveError

/-- Observable outcome of one solver call: fall through without touching the
result state (`noop`), raise an alert and return (`error`), or store a fresh
result (`ok`). -/
inductive SolveOutcome (α : Type) where
  | noop : SolveOutcome α
  | error : SolveError → SolveOutcome α
  | ok : α → SolveOutcome α

/-- Result of the `a`-and-`b` branch of `calculatePythagoras`
(source lines 215-224). -/
noncomputable def pythResultAB (a b : ℝ) : PythResult :=
  let result := jsSqrt (a * a + b * b)
  { val := result
    steps :=
      [⟨"Identificamos los catetos:", MathExpr.knownAB a b⟩,
       ⟨"Usamos la fórmula:", MathExpr.formulaC⟩,
       ⟨"Sustituimos valores:", MathExpr.substC a b⟩,
       ⟨"Calculamos cuadrados:",
         MathExpr.squaresC (jsToFixed 2 (a * a)) (jsToFixed 2 (b * b))⟩,
       ⟨"Sumamos:", MathExpr.sumC (jsToFixed 2 (a * a + b * b))⟩,
       ⟨"Resultado final:", MathExpr.approxC (jsToFixedJ 4 result)⟩] }

/-- Result of the `a`-and-`c` branch of `calculatePythagoras`
(source lines 225-233), after its guard has passed. -/
noncomputable def pythResultAC (a c : ℝ) : PythResult :=
  let result := jsSqrt (c * c - a * a)
  { val := result
    steps :=
      [⟨"Identificamos los lados:", MathExpr.knownAC a c⟩,
       ⟨"Despejamos b de la fórmula:", MathExpr.formulaB⟩,
       ⟨"Sustituimos valores:", MathExpr.substB a c⟩,
       ⟨"Resultado final:", MathExpr.approxB (jsToFixedJ 4 result)⟩] }

/-- Result of the `b`-and-`c` branch of `calculatePythagoras`
(source lines 234-242), after its guard has passed. -/
noncomputable def pythResultBC (b c : ℝ) : PythResult :=
  let result := jsSqrt (c * c - b * b)
  { val := result
    steps :=
      [⟨"Identificamos los lados:", MathExpr.knownBC b c⟩,
       ⟨"Despejamos a de la fórmula:", MathExpr.formulaA⟩,
       ⟨"Sustituimos valores:", MathExpr.substA b c⟩,
       ⟨"Resultado final:", MathExpr.approxA (jsToFixedJ 4 result)⟩] }

/-- The Pythagoras solver, source lines 207-244.  Branch structure mirrors
the chained `if (!isNaN(a) && !isNaN(b)) ... else if ... else if ...`: the
first branch fires whenever `a` and `b` are both numeric, regardless of `c`;
the leg branches guard `c <= leg` with an alert; every other presence
pattern falls through and nothing happens. -/
noncomputable def calculatePythagoras (pythA pythB pythC : Option ℝ) :
    SolveOutcome PythResult :=
  match pythA, pythB, pythC with
  | some a, some b, _ => SolveOutcome.ok (pythResultAB a b)
  | some a, none, some c =>
      if c ≤ a then SolveOutcome.error SolveError.invalidGeometry
      else SolveOutcome.ok (pythResultAC a c)
  | none, some b, some c =>
      if c ≤ b then SolveOutcome.error SolveError.invalidGeometry
      else SolveOutcome.ok (pythResultBC b c)
  | _, _, _ => SolveOutcome.noop

/-- Result of the hypotenuse-known branch of `calculateTrig`
(source lines 257-263), after validation. -/
noncomputable def trigResultC (angleDeg sideVal : ℝ) : TrigResult :=
  let angleRad := angleDeg * Real.pi / 180
  let c := sideVal
  let a := c * Real.sin angleRad
  let b := c * Real.cos angleRad
  { a := a, b := b, c := c
    sin := Real.sin angleRad, cos := Real.cos angleRad, tan := Real.tan angleRad
    steps :=
      [⟨"Dado Hipotenusa (c) y ángulo (α):", MathExpr.trigGivenC c angleDeg⟩,
       ⟨"Calculamos cateto opuesto (a):",
         MathExpr.trigCalcAFromC c angleDeg (jsToFixed 4 a)⟩,
       ⟨"Calculamos cateto adyacente (b):",
         MathExpr.trigCalcBFromC c angleDeg (jsToFixed 4 b)⟩] }

/-- Result of the opposite-leg-known branch of `calculateTrig`
(source lines 264-270), after validation. -/
noncomputable def trigResultA (angleDeg sideVal : ℝ) : TrigResult :=
  let angleRad := angleDeg * Real.pi / 180
  let a := sideVal
  let c := a / Real.sin angleRad
  let b := a / Real.tan angleRad
  { a := a, b := b, c := c
    sin := Real.sin angleRad, cos := Real.cos angleRad, tan := Real.tan angleRad
    steps :=
      [⟨"Dado Cateto Opuesto (a) y ángulo (α):", MathExpr.trigGivenA a angleDeg⟩,
       ⟨"Calculamos hipotenusa (c):",
         MathExpr.trigCalcCFromA a angleDeg (jsToFixed 4 c)⟩,
       ⟨"Calculamos cateto adyacente (b):",
         MathExpr.trigCalcBFromA a angleDeg (jsToFixed 4 b)⟩] }

/-- Result of the adjacent-leg-known branch of `calculateTrig`
(source lines 271-278), after validation. -/
noncomputable def trigResultB (angleDeg sideVal : ℝ) : TrigResult :=
  let angleRad := angleDeg * Real.pi / 180
  let b := sideVal
  let c := b / Real.cos angleRad
  let a := b * Real.tan angleRad
  { a := a, b := b, c := c
    sin := Real.sin angleRad, cos := Real.cos angleRad, tan := Real.tan angleRad
    steps :=
      [⟨"Dado Cateto Adyacente (b) y ángulo (α):", MathExpr.trigGivenB b angleDeg⟩,
       ⟨"Calculamos hipotenusa (c):",
         MathExpr.trigCalcCFromB b angleDeg (jsToFixed 4 c)⟩,
       ⟨"Calculamos cateto opuesto (a):",
         MathExpr.trigCalcAFromB b angleDeg (jsToFixed 4 a)⟩] }

/-- The trig solver, source lines 246-287.  Non-numeric angle or side value
falls through silently; an angle outside the open interval (0, 90) raises
the `InvalidAngle` alert; otherwise the branch on the known side computes
the two missing sides, and sin, cos, tan of the converted angle are stored
with the result. -/
noncomputable def calculateTrig (trigAngle : Option ℝ) (trigSideType : Side)
    (trigSideVal : Option ℝ) : SolveOutcome TrigResult :=
  match trigAngle, trigSideVal with
  | some angleDeg, some sideVal =>
      if angleDeg ≤ 0 ∨ 90 ≤ angleDeg then SolveOutcome.error SolveError.invalidAngle
      else
        match trigSideType with
        | Side.c => SolveOutcome.ok (trigResultC angleDeg sideVal)
        | Side.a => SolveOutcome.ok (trigResultA angleDeg sideVal)
        | Side.b => SolveOutcome.ok (trigResultB angleDeg sideVal)
  | _, _ => SolveOutcome.noop

/-- Number of present (numeric) values among the three triangle inputs. -/
def presentCount (pythA pythB pythC : Option ℝ) : ℕ :=
  (if pythA.isSome then 1 else 0) + (if pythB.isSome then 1 else 0) +
    (if pythC.isSome then 1 else 0)

/-- Holds exactly when the outcome stored a result. -/
def SolveOutcome.isOk {α : Type} : SolveOutcome α → Prop
  | SolveOutcome.ok _ => True
  | _ => False

/-- On a non-negative argument `jsSqrt` is the real square root. -/
theorem jsSqrt_of_nonneg {x : ℝ} (h : 0 ≤ x) :
    jsSqrt x = JsNum.num (Real.sqrt x) := if_pos h

/-- Rational bracketing of √3 used for the rounded trig displays. -/
theorem sqrt_three_bounds : (1.732050 : ℝ) ≤ Real.sqrt 3 ∧ Real.sqrt 3 ≤ 1.732051 := by
  have h := Real.sq_sqrt (show (0 : ℝ) ≤ 3 by norm_num)
  constructor <;> nlinarith [Real.sqrt_nonneg 3]

/-- The converted angle of a degree value in (0, 90) lies in (0, π/2). -/
theorem angleRad_bounds {d : ℝ} (h0 : 0 < d) (h90 : d < 90) :
    0 < d * Real.pi / 180 ∧ d * Real.pi / 180 < Real.pi / 2 := by
  constructor
  · positivity
  · nlinarith [Real.pi_pos, mul_pos (show (0 : ℝ) < 90 - d by linarith) Real.pi_pos]

/-- Sine and cosine of an angle in (0, π/2) lie strictly between 0 and 1. -/
theorem sin_cos_bounds {θ : ℝ} (h0 : 0 < θ) (h2 : θ < Real.pi / 2) :
    0 < Real.sin θ ∧ Real.sin θ < 1 ∧ 0 < Real.cos θ ∧ Real.cos θ < 1 := by
  have hs : 0 < Real.sin θ :=
    Real.sin_pos_of_pos_of_lt_pi h0 (lt_trans h2 (by linarith [Real.pi_pos]))
  have hc : 0 < Real.cos θ :=
    Real.cos_pos_of_mem_Ioo ⟨by linarith [Real.pi_pos], h2⟩
  have hp := Real.sin_sq_add_cos_sq θ
  refine ⟨hs, ?_, hc, ?_⟩
  · nlinarith [mul_pos hc hc, sq_nonneg (Real.sin θ - 1)]
  · nlinarith [mul_pos hs hs, sq_nonneg (Real.cos θ - 1)]

/-- C10: when all three of a, b, c are present and numeric,
`calculatePythagoras` takes the a-and-b branch, producing c = √(a²+b²) with
its 6-step derivation and silently ignoring the supplied c: the (a,b) branch
always takes precedence over the (a,c) and (b,c) branches. -/
theorem pythagoras_three_present_takes_ab_branch (a b c : ℝ) :
    calculatePythagoras (some a) (some b) (some c) =
      SolveOutcome.ok (pythResultAB a b) ∧
    calculatePythagoras (some a) (some b) (some c) =
      calculatePythagoras (some a) (some b) none :=
  ⟨rfl, rfl⟩

/-- C1 counterexample: with all three values 3, 4, 5 present, the solver is
not a no-op — it produces a result (the a-and-b branch fires), refuting the
claim that three present values yield no result. -/
theorem pythagoras_three_present_produces_result :
    (calculatePythagoras (some 3) (some 4) (some 5)).isOk := by
  simp [calculatePythagoras, SolveOutcome.isOk]

/-- C1 amended: with zero or one of a, b, c present and numeric, the call is
a no-op: no result is produced and no error is raised.  (Three present values
take the a-and-b branch and do produce a result.) -/
theorem pythagoras_at_most_one_present_noop (oa ob oc : Option ℝ)
    (h : presentCount oa ob oc ≤ 1) :
    calculatePythagoras oa ob oc = SolveOutcome.noop := by
  cases oa <;> cases ob <;> cases oc <;>
    first
      | rfl
      | simp [presentCount] at h

/-- Witness for the amended C1 at the concrete input a = 7, b and c absent. -/
theorem pythagoras_at_most_one_present_noop_witness :
    presentCount (some 7) none none ≤ 1 ∧
    calculatePythagoras (some 7) none none = SolveOutcome.noop :=
  ⟨by simp [presentCount],
   pythagoras_at_most_one_present_noop (some 7) none none (by simp [presentCount])⟩

/-- C6: the trig solver is a no-op whenever the angle or the known side
value is non-numeric, and for numeric inputs it fails with `InvalidAngle`
exactly when the angle is ≤ 0 or ≥ 90 degrees. -/
theorem trig_input_validation :
    (∀ (s : Side) (v : Option ℝ), calculateTrig none s v = SolveOutcome.noop) ∧
    (∀ (d : ℝ) (s : Side), calculateTrig (some d) s none = SolveOutcome.noop) ∧
    (∀ (d v : ℝ) (s : Side),
      calculateTrig (some d) s (some v) = SolveOutcome.error SolveError.invalidAngle ↔
        d ≤ 0 ∨ 90 ≤ d) := by
  refine ⟨fun s v => by cases v <;> rfl, fun d s => rfl, fun d v s => ?_⟩
  by_cases hd : d ≤ 0 ∨ 90 ≤ d
  · simp [calculateTrig, if_pos hd, hd]
  · simp only [calculateTrig, if_neg hd]
    cases s <;> simp [hd]

/-- Witness for C6 at the boundary angles 0 and 90, both rejected. -/
theorem trig_input_validation_witness :
    calculateTrig (some 0) Side.c (some 5) =
      SolveOutcome.error SolveError.invalidAngle ∧
    calculateTrig (some 90) Side.c (some 5) =
      SolveOutcome.error SolveError.invalidAngle :=
  ⟨(trig_input_validation.2.2 0 5 Side.c).mpr (Or.inl le_rfl),
   (trig_input_validation.2.2 90 5 Side.c).mpr (Or.inr le_rfl)⟩

/-- C9: every trig result is internally consistent — the sin, cos, tan
stored with the result come from the same converted angle as the sides, so
with the hypotenuse known `a = c·sin` and `b = c·cos` exactly, and the
analogous exact equations hold in the other two branches. -/
theorem trig_internal_consistency (d v : ℝ) (s : Side) (r : TrigResult)
    (h : calculateTrig (some d) s (some v) = SolveOutcome.ok r) :
    (s = Side.c → r.a = r.c * r.sin ∧ r.b = r.c * r.cos) ∧
    (s = Side.a → r.c = r.a / r.sin ∧ r.b = r.a / r.tan) ∧
    (s = Side.b → r.c = r.b / r.cos ∧ r.a = r.b * r.tan) := by
  by_cases hd : d ≤ 0 ∨ 90 ≤ d
  · simp [calculateTrig, if_pos hd] at h
  · rcases s with _ | _ | _
    · simp only [calculateTrig, if_neg hd, SolveOutcome.ok.injEq] at h
      subst h
      exact ⟨fun hs => Side.noConfusion hs, fun _ => ⟨rfl, rfl⟩,
        fun hs => Side.noConfusion hs⟩
    · simp only [calculateTrig, if_neg hd, SolveOutcome.ok.injEq] at h
      subst h
      exact ⟨fun hs => Side.noConfusion hs, fun hs => Side.noConfusion hs,
        fun _ => ⟨rfl, rfl⟩⟩
    · simp only [calculateTrig, if_neg hd, SolveOutcome.ok.injEq] at h
      subst h
      exact ⟨fun _ => ⟨rfl, rfl⟩, fun hs => Side.noConfusion hs,
        fun hs => Side.noConfusion hs⟩

/-- Witness for C9 at angle 30, hypotenuse 10. -/
theorem trig_internal_consistency_witness :
    calculateTrig (some 30) Side.c (some 10) =
      SolveOutcome.ok (trigResultC 30 10) ∧
    (trigResultC 30 10).a = (trigResultC 30 10).c * (trigResultC 30 10).sin ∧
    (trigResultC 30 10).b = (trigResultC 30 10).c * (trigResultC 30 10).cos := by
  have h : calculateTrig (some 30) Side.c (some 10) =
      SolveOutcome.ok (trigResultC 30 10) := by
    have hd : ¬((30 : ℝ) ≤ 0 ∨ 90 ≤ (30 : ℝ)) := by norm_num
    simp [calculateTrig, if_neg hd]
  exact ⟨h, (trig_internal_consistency 30 10 Side.c (trigResultC 30 10) h).1 rfl⟩

/-- C3: for every pair of numeric inputs a and b (c absent), the solver
returns c = √(a²+b²) with the 6-step derivation in order (restate legs,
formula, substitution, squares to 2 decimals, sum to 2 decimals, final
result to 4 decimals); at a = 3, b = 4 the value is 5 (displayed 5.0000) and
the 4th derivation line shows 9.00 + 16.00. -/
theorem pythagoras_ab_derivation :
    (∀ a b : ℝ,
      calculatePythagoras (some a) (some b) none =
        SolveOutcome.ok (pythResultAB a b) ∧
      (pythResultAB a b).val = JsNum.num (Real.sqrt (a * a + b * b)) ∧
      (pythResultAB a b).steps =
        [⟨"Identificamos los catetos:", MathExpr.knownAB a b⟩,
         ⟨"Usamos la fórmula:", MathExpr.formulaC⟩,
         ⟨"Sustituimos valores:", MathExpr.substC a b⟩,
         ⟨"Calculamos cuadrados:",
           MathExpr.squaresC (jsToFixed 2 (a * a)) (jsToFixed 2 (b * b))⟩,
         ⟨"Sumamos:", MathExpr.sumC (jsToFixed 2 (a * a + b * b))⟩,
         ⟨"Resultado final:",
           MathExpr.approxC
             (FixedNum.num (jsToFixed 4 (Real.sqrt (a * a + b * b))))⟩]) ∧
    ((pythResultAB 3 4).val = JsNum.num 5 ∧
      jsToFixed 4 (5 : ℝ) = 50000 ∧
      (pythResultAB 3 4).steps[3]? =
        some ⟨"Calculamos cuadrados:", MathExpr.squaresC 900 1600⟩ ∧
      MathExpr.mathString (MathExpr.squaresC 900 1600) =
        some ("c = \\sqrt\x7b9.00 + 16.00\x7d")) := by
  have hsq : ∀ a b : ℝ, (0 : ℝ) ≤ a * a + b * b := fun a b =>
    add_nonneg (mul_self_nonneg a) (mul_self_nonneg b)
  have hval : ∀ a b : ℝ,
      (pythResultAB a b).val = JsNum.num (Real.sqrt (a * a + b * b)) := by
    intro a b
    simp [pythResultAB, jsSqrt_of_nonneg (hsq a b)]
  have hsqrt25 : Real.sqrt (3 * 3 + 4 * 4) = 5 := by
    rw [show (3 * 3 + 4 * 4 : ℝ) = 5 ^ 2 by norm_num, Real.sqrt_sq]
    norm_num
  refine ⟨fun a b => ⟨rfl, hval a b, ?_⟩, ?_, ?_, ?_, ?_⟩
  · simp [pythResultAB, jsSqrt_of_nonneg (hsq a b), jsToFixedJ]
  · rw [hval 3 4, hsqrt25]
  · rw [jsToFixed]
    norm_num
  · have h1 : jsToFixed 2 ((3 : ℝ) * 3) = 900 := by rw [jsToFixed]; norm_num
    have h2 : jsToFixed 2 ((4 : ℝ) * 4) = 1600 := by rw [jsToFixed]; norm_num
    simp [pythResultAB, h1, h2]
  · rfl

/-- C4: with exactly the pair (a, c) or (b, c) present, the solver fails
with `InvalidGeometry` if and only if c ≤ leg (producing no result), and
otherwise returns the missing leg √(c²−leg²) with its 4-step derivation;
for a non-negative leg this value is the real square root. -/
theorem pythagoras_leg_branch_guard (l c : ℝ) :
    (calculatePythagoras (some l) none (some c) =
        SolveOutcome.error SolveError.invalidGeometry ↔ c ≤ l) ∧
    (calculatePythagoras none (some l) (some c) =
        SolveOutcome.error SolveError.invalidGeometry ↔ c ≤ l) ∧
    (l < c →
      calculatePythagoras (some l) none (some c) =
        SolveOutcome.ok (pythResultAC l c) ∧
      calculatePythagoras none (some l) (some c) =
        SolveOutcome.ok (pythResultBC l c) ∧
      (pythResultAC l c).val = jsSqrt (c * c - l * l) ∧
      (pythResultAC l c).steps.length = 4 ∧
      (pythResultBC l c).steps.length = 4) ∧
    (0 ≤ l → l < c →
      (pythResultAC l c).val = JsNum.num (Real.sqrt (c * c - l * l)) ∧
      (pythResultBC l c).val = JsNum.num (Real.sqrt (c * c - l * l))) := by
  refine ⟨?_, ?_, fun hlt => ?_, fun hl hlt => ?_⟩
  · by_cases h : c ≤ l
    · simp [calculatePythagoras, if_pos h, h]
    · simp [calculatePythagoras, if_neg h, h]
  · by_cases h : c ≤ l
    · simp [calculatePythagoras, if_pos h, h]
    · simp [calculatePythagoras, if_neg h, h]
  · have h : ¬c ≤ l := not_le.mpr hlt
    exact ⟨by simp [calculatePythagoras, if_neg h], by
      simp [calculatePythagoras, if_neg h], rfl, rfl, rfl⟩
  · have hnn : (0 : ℝ) ≤ c * c - l * l := by nlinarith
    constructor
    · simp [pythResultAC, jsSqrt_of_nonneg hnn]
    · simp [pythResultBC, jsSqrt_of_nonneg hnn]

/-- Witness for C4: a = 5, c = 5 fails with `InvalidGeometry`; a = 3, c = 5
succeeds with b = 4. -/
theorem pythagoras_leg_branch_guard_witness :
    calculatePythagoras (some 5) none (some 5) =
      SolveOutcome.error SolveError.invalidGeometry ∧
    calculatePythagoras (some 3) none (some 5) =
      SolveOutcome.ok (pythResultAC 3 5) ∧
    (pythResultAC 3 5).val = JsNum.num 4 := by
  refine ⟨(pythagoras_leg_branch_guard 5 5).1.mpr le_rfl,
    ((pythagoras_leg_branch_guard 3 5).2.2.1 (by norm_num)).1, ?_⟩
  have h := ((pythagoras_leg_branch_guard 3 5).2.2.2 (by norm_num) (by norm_num)).1
  rw [h, show (5 * 5 - 3 * 3 : ℝ) = 4 ^ 2 by norm_num, Real.sqrt_sq]
  norm_num

/-- C8: for non-negative a, b the solver with c absent returns
c = √(a²+b²); and for 0 ≤ a < c, solving (a, absent, c) yields
b = √(c²−a²), and recombining a with that b through the first form
reproduces c exactly over the real-number embedding. -/
theorem pythagoras_roundtrip (a b c : ℝ) :
    (0 ≤ a → 0 ≤ b →
      calculatePythagoras (some a) (some b) none =
        SolveOutcome.ok (pythResultAB a b) ∧
      (pythResultAB a b).val = JsNum.num (Real.sqrt (a * a + b * b))) ∧
    (0 ≤ a → a < c →
      calculatePythagoras (some a) none (some c) =
        SolveOutcome.ok (pythResultAC a c) ∧
      (pythResultAC a c).val = JsNum.num (Real.sqrt (c * c - a * a)) ∧
      jsSqrt (a * a + Real.sqrt (c * c - a * a) * Real.sqrt (c * c - a * a)) =
        JsNum.num c) := by
  constructor
  · intro _ _
    have hsq : (0 : ℝ) ≤ a * a + b * b :=
      add_nonneg (mul_self_nonneg a) (mul_self_nonneg b)
    exact ⟨rfl, by simp [pythResultAB, jsSqrt_of_nonneg hsq]⟩
  · intro ha hlt
    have h : ¬c ≤ a := not_le.mpr hlt
    have hnn : (0 : ℝ) ≤ c * c - a * a := by nlinarith
    have hc0 : (0 : ℝ) ≤ c := le_trans ha hlt.le
    refine ⟨by simp [calculatePythagoras, if_neg h],
      by simp [pythResultAC, jsSqrt_of_nonneg hnn], ?_⟩
    rw [Real.mul_self_sqrt hnn, show a * a + (c * c - a * a) = c * c by ring,
      jsSqrt_of_nonneg (mul_self_nonneg c), Real.sqrt_mul_self hc0]

/-- Witness for C8 at a = 3, b = 4, c = 5. -/
theorem pythagoras_roundtrip_witness :
    (pythResultAB 3 4).val = JsNum.num (Real.sqrt (3 * 3 + 4 * 4)) ∧
    jsSqrt (3 * 3 + Real.sqrt (5 * 5 - 3 * 3) * Real.sqrt (5 * 5 - 3 * 3)) =
      JsNum.num 5 :=
  ⟨((pythagoras_roundtrip 3 4 5).1 (by norm_num) (by norm_num)).2,
   ((pythagoras_roundtrip 3 4 5).2 (by norm_num) (by norm_num)).2.2⟩

/-- C2 counterexample: the input a = -5, c = 3 (b absent) passes the
`c ≤ a` guard (3 ≤ -5 is false), so a result is produced, yet its value is
`Math.sqrt(3·3 - (-5)·(-5)) = Math.sqrt(-16) = NaN` — a produced result
whose numeric field is not a finite real, refuting the claim. -/
theorem pythagoras_nan_result :
    calculatePythagoras (some (-5)) none (some 3) =
      SolveOutcome.ok (pythResultAC (-5) 3) ∧
    (pythResultAC (-5) 3).val = JsNum.nan := by
  constructor
  · have h : ¬(3 : ℝ) ≤ -5 := by norm_num
    simp [calculatePythagoras, if_neg h]
  · have h : ¬(0 : ℝ) ≤ 3 * 3 - -5 * -5 := by norm_num
    simp only [pythResultAC, jsSqrt, if_neg h]

/-- C2 amended: when every present input of the triangle solver is
non-negative, any produced result carries a real (non-NaN) value; and every
trig result's ratio fields are nonzero reals with a nonempty derivation.
(The unrestricted claim fails: a negative leg of magnitude above the
hypotenuse yields a NaN value.) -/
theorem solver_results_are_real (oa ob oc : Option ℝ) (d v : ℝ) (s : Side)
    (r : PythResult) (t : TrigResult) :
    ((∀ x, oa = some x → 0 ≤ x) → (∀ x, ob = some x → 0 ≤ x) →
      (∀ x, oc = some x → 0 ≤ x) →
      calculatePythagoras oa ob oc = SolveOutcome.ok r → r.val.isNum) ∧
    (calculateTrig (some d) s (some v) = SolveOutcome.ok t →
      t.sin ≠ 0 ∧ t.cos ≠ 0 ∧ t.tan ≠ 0 ∧ t.steps ≠ []) := by
  constructor
  · intro ha hb hc h
    match hoa : oa, hob : ob, hoc : oc with
    | some a, some b, _ =>
        simp only [calculatePythagoras, SolveOutcome.ok.injEq] at h
        subst h
        have hsq : (0 : ℝ) ≤ a * a + b * b :=
          add_nonneg (mul_self_nonneg a) (mul_self_nonneg b)
        simp [pythResultAB, jsSqrt_of_nonneg hsq, JsNum.isNum]
    | some a, none, some c =>
        have ha' : 0 ≤ a := ha a rfl
        have hc' : 0 ≤ c := hc c rfl
        by_cases hg : c ≤ a
        · simp [calculatePythagoras, if_pos hg] at h
        · simp only [calculatePythagoras, if_neg hg, SolveOutcome.ok.injEq] at h
          subst h
          have hnn : (0 : ℝ) ≤ c * c - a * a := by
            have := not_le.mp hg
            nlinarith
          simp [pythResultAC, jsSqrt_of_nonneg hnn, JsNum.isNum]
    | none, some b, some c =>
        have hb' : 0 ≤ b := hb b rfl
        have hc' : 0 ≤ c := hc c rfl
        by_cases hg : c ≤ b
        · simp [calculatePythagoras, if_pos hg] at h
        · simp only [calculatePythagoras, if_neg hg, SolveOutcome.ok.injEq] at h
          subst h
          have hnn : (0 : ℝ) ≤ c * c - b * b := by
            have := not_le.mp hg
            nlinarith
          simp [pythResultBC, jsSqrt_of_nonneg hnn, JsNum.isNum]
    | some _, none, none => simp [calculatePythagoras] at h
    | none, some _, none => simp [calculatePythagoras] at h
    | none, none, some _ => simp [calculatePythagoras] at h
    | none, none, none => simp [calculatePythagoras] at h
  · intro h
    by_cases hd : d ≤ 0 ∨ 90 ≤ d
    · simp [calculateTrig, if_pos hd] at h
    · push_neg at hd
      obtain ⟨hrad0, hrad2⟩ := angleRad_bounds hd.1 hd.2
      obtain ⟨hs, _, hc, _⟩ := sin_cos_bounds hrad0 hrad2
      have htan : Real.tan (d * Real.pi / 180) ≠ 0 := by
        rw [Real.tan_eq_sin_div_cos]
        exact div_ne_zero hs.ne' hc.ne'
      have hd' : ¬(d ≤ 0 ∨ 90 ≤ d) := by push_neg; exact hd
      rcases s with _ | _ | _ <;>
        · simp only [calculateTrig, if_neg hd', SolveOutcome.ok.injEq] at h
          subst h
          exact ⟨hs.ne', hc.ne', htan, by
            simp [trigResultA, trigResultB, trigResultC]⟩

/-- Witness for the amended C2 at a = 3, c = 5 and angle 30, hypotenuse 10. -/
theorem solver_results_are_real_witness :
    (pythResultAC 3 5).val.isNum ∧ (trigResultC 30 10).tan ≠ 0 := by
  have hg : ¬(5 : ℝ) ≤ 3 := by norm_num
  have hp : calculatePythagoras (some 3) none (some 5) =
      SolveOutcome.ok (pythResultAC 3 5) := by
    simp [calculatePythagoras, if_neg hg]
  have hd : ¬((30 : ℝ) ≤ 0 ∨ 90 ≤ (30 : ℝ)) := by norm_num
  have ht : calculateTrig (some 30) Side.c (some 10) =
      SolveOutcome.ok (trigResultC 30 10) := by
    simp [calculateTrig, if_neg hd]
  have h := solver_results_are_real (some 3) none (some 5) 30 10 Side.c
    (pythResultAC 3 5) (trigResultC 30 10)
  refine ⟨h.1 ?_ ?_ ?_ hp, (h.2 ht).2.2.1⟩
  · intro x hx
    injection hx with hx
    rw [← hx]
    norm_num
  · intro x hx
    exact Option.noConfusion hx
  · intro x hx
    injection hx with hx
    rw [← hx]
    norm_num

/-- C5: for every angle in degrees strictly between 0 and 90, with
θ = angle·π/180, the trig solver branches on the known side: hypotenuse
known gives a = c·sin θ and b = c·cos θ; opposite leg known gives
c = a/sin θ and b = a/tan θ; adjacent leg known gives c = b/cos θ and
a = b·tan θ; and angle 30 with hypotenuse 10 yields a = 5 (5.0000),
b displayed 8.6603, sin 0.5000, cos 0.8660, tan 0.5774. -/
theorem trig_branch_formulas :
    (∀ d v : ℝ, 0 < d → d < 90 →
      (calculateTrig (some d) Side.c (some v) =
          SolveOutcome.ok (trigResultC d v) ∧
        (trigResultC d v).c = v ∧
        (trigResultC d v).a = v * Real.sin (d * Real.pi / 180) ∧
        (trigResultC d v).b = v * Real.cos (d * Real.pi / 180)) ∧
      (calculateTrig (some d) Side.a (some v) =
          SolveOutcome.ok (trigResultA d v) ∧
        (trigResultA d v).a = v ∧
        (trigResultA d v).c = v / Real.sin (d * Real.pi / 180) ∧
        (trigResultA d v).b = v / Real.tan (d * Real.pi / 180)) ∧
      (calculateTrig (some d) Side.b (some v) =
          SolveOutcome.ok (trigResultB d v) ∧
        (trigResultB d v).b = v ∧
        (trigResultB d v).c = v / Real.cos (d * Real.pi / 180) ∧
        (trigResultB d v).a = v * Real.tan (d * Real.pi / 180))) ∧
    ((trigResultC 30 10).a = 5 ∧
      jsToFixed 4 (trigResultC 30 10).a = 50000 ∧
      jsToFixed 4 (trigResultC 30 10).b = 86603 ∧
      jsToFixed 4 (trigResultC 30 10).sin = 5000 ∧
      jsToFixed 4 (trigResultC 30 10).cos = 8660 ∧
      jsToFixed 4 (trigResultC 30 10).tan = 5774) := by
  have hθ : (30 : ℝ) * Real.pi / 180 = Real.pi / 6 := by ring
  have hspos : (0 : ℝ) < Real.sqrt 3 := Real.sqrt_pos.mpr (by norm_num)
  constructor
  · intro d v h0 h90
    have hd : ¬(d ≤ 0 ∨ 90 ≤ d) := by push_neg; exact ⟨h0, h90⟩
    exact ⟨⟨by simp [calculateTrig, if_neg hd], rfl, rfl, rfl⟩,
      ⟨by simp [calculateTrig, if_neg hd], rfl, rfl, rfl⟩,
      ⟨by simp [calculateTrig, if_neg hd], rfl, rfl, rfl⟩⟩
  · have ha : (trigResultC 30 10).a = 5 := by
      show (10 : ℝ) * Real.sin (30 * Real.pi / 180) = 5
      rw [hθ, Real.sin_pi_div_six]
      norm_num
    have hb : (trigResultC 30 10).b = 5 * Real.sqrt 3 := by
      show (10 : ℝ) * Real.cos (30 * Real.pi / 180) = 5 * Real.sqrt 3
      rw [hθ, Real.cos_pi_div_six]
      ring
    have hsin : (trigResultC 30 10).sin = 1 / 2 := by
      show Real.sin (30 * Real.pi / 180) = 1 / 2
      rw [hθ, Real.sin_pi_div_six]
    have hcos : (trigResultC 30 10).cos = Real.sqrt 3 / 2 := by
      show Real.cos (30 * Real.pi / 180) = Real.sqrt 3 / 2
      rw [hθ, Real.cos_pi_div_six]
    have htan : (trigResultC 30 10).tan = 1 / Real.sqrt 3 := by
      show Real.tan (30 * Real.pi / 180) = 1 / Real.sqrt 3
      rw [hθ, Real.tan_pi_div_six]
    refine ⟨ha, ?_, ?_, ?_, ?_, ?_⟩
    · rw [ha, jsToFixed]
      norm_num
    · rw [hb, jsToFixed, Int.floor_eq_iff]
      push_cast
      constructor <;> nlinarith [sqrt_three_bounds.1, sqrt_three_bounds.2]
    · rw [hsin, jsToFixed]
      norm_num
    · rw [hcos, jsToFixed, Int.floor_eq_iff]
      push_cast
      constructor <;> nlinarith [sqrt_three_bounds.1, sqrt_three_bounds.2]
    · have hlow : (5773.5 : ℝ) ≤ 10000 / Real.sqrt 3 := by
        rw [le_div_iff₀ hspos]
        nlinarith [sqrt_three_bounds.2]
      have hhigh : (10000 : ℝ) / Real.sqrt 3 < 5774.5 := by
        rw [div_lt_iff₀ hspos]
        nlinarith [sqrt_three_bounds.1]
      have e : (1 / Real.sqrt 3) * 10 ^ 4 + 1 / 2 =
          10000 / Real.sqrt 3 + 1 / 2 := by ring
      rw [htan, jsToFixed, e, Int.floor_eq_iff]
      push_cast
      constructor <;> linarith [hlow, hhigh]

/-- Witness for C5 at angle 30, hypotenuse 10. -/
theorem trig_branch_formulas_witness :
    calculateTrig (some 30) Side.c (some 10) =
      SolveOutcome.ok (trigResultC 30 10) ∧
    jsToFixed 4 (trigResultC 30 10).b = 86603 :=
  ⟨(trig_branch_formulas.1 30 10 (by norm_num) (by norm_num)).1.1,
   trig_branch_formulas.2.2.2.1⟩

/-- C7: for every angle strictly between 0 and 90 degrees and every
positive known side value, the trig result exists and its three sides are
positive reals with the hypotenuse strictly longest, in every branch. -/
theorem trig_result_triangle_valid (d v : ℝ) (s : Side) (h0 : 0 < d)
    (h90 : d < 90) (hv : 0 < v) :
    (calculateTrig (some d) s (some v)).isOk ∧
    (∀ r, calculateTrig (some d) s (some v) = SolveOutcome.ok r →
      0 < r.a ∧ 0 < r.b ∧ 0 < r.c ∧ r.a < r.c ∧ r.b < r.c) := by
  have hd : ¬(d ≤ 0 ∨ 90 ≤ d) := by push_neg; exact ⟨h0, h90⟩
  obtain ⟨hr0, hr2⟩ := angleRad_bounds h0 h90
  obtain ⟨hs, hs1, hc, hc1⟩ := sin_cos_bounds hr0 hr2
  rcases s with _ | _ | _
  · refine ⟨by simp [calculateTrig, if_neg hd, SolveOutcome.isOk], fun r h => ?_⟩
    simp only [calculateTrig, if_neg hd, SolveOutcome.ok.injEq] at h
    subst h
    refine ⟨hv, ?_, div_pos hv hs, ?_, ?_⟩
    · show (0 : ℝ) < v / Real.tan (d * Real.pi / 180)
      rw [Real.tan_eq_sin_div_cos]
      exact div_pos hv (div_pos hs hc)
    · show v < v / Real.sin (d * Real.pi / 180)
      rw [lt_div_iff₀ hs]
      nlinarith [mul_lt_mul_of_pos_left hs1 hv]
    · show v / Real.tan (d * Real.pi / 180) < v / Real.sin (d * Real.pi / 180)
      rw [Real.tan_eq_sin_div_cos, div_div_eq_mul_div,
        div_lt_div_iff_of_pos_right hs]
      nlinarith [mul_lt_mul_of_pos_left hc1 hv]
  · refine ⟨by simp [calculateTrig, if_neg hd, SolveOutcome.isOk], fun r h => ?_⟩
    simp only [calculateTrig, if_neg hd, SolveOutcome.ok.injEq] at h
    subst h
    refine ⟨?_, hv, div_pos hv hc, ?_, ?_⟩
    · show (0 : ℝ) < v * Real.tan (d * Real.pi / 180)
      rw [Real.tan_eq_sin_div_cos]
      exact mul_pos hv (div_pos hs hc)
    · show v * Real.tan (d * Real.pi / 180) < v / Real.cos (d * Real.pi / 180)
      rw [Real.tan_eq_sin_div_cos, mul_div_assoc',
        div_lt_div_iff_of_pos_right hc]
      nlinarith [mul_lt_mul_of_pos_left hs1 hv]
    · show v < v / Real.cos (d * Real.pi / 180)
      rw [lt_div_iff₀ hc]
      nlinarith [mul_lt_mul_of_pos_left hc1 hv]
  · refine ⟨by simp [calculateTrig, if_neg hd, SolveOutcome.isOk], fun r h => ?_⟩
    simp only [calculateTrig, if_neg hd, SolveOutcome.ok.injEq] at h
    subst h
    refine ⟨mul_pos hv hs, mul_pos hv hc, hv, ?_, ?_⟩
    · show v * Real.sin (d * Real.pi / 180) < v
      nlinarith [mul_lt_mul_of_pos_left hs1 hv]
    · show v * Real.cos (d * Real.pi / 180) < v
      nlinarith [mul_lt_mul_of_pos_left hc1 hv]

/-- Witness for C7 at angle 30, hypotenuse 10. -/
theorem trig_result_triangle_valid_witness :
    (calculateTrig (some 30) Side.c (some 10)).isOk :=
  (trig_result_triangle_valid 30 10 Side.c (by norm_num) (by norm_num)
    (by norm_num)).1

end GeoMaster
